import Mathlib

/-!
Shallow embedding of `src/Examples/MC13213_SRB/SRB_SMAC/Common/Radio.c`
(the radio module of the MC13213 SRB SMAC example), together with
theorems settling the frozen claims about its specification.

Modelling conventions:
- C strings are `List Char` (null-terminator-free; reading past the end of
  a string yields the NUL character, modelled by `Char.ofNat 0` defaults).
- Raw byte buffers (queue slots) are `List Nat`, each entry `< 256`.
- Machine integers are `Nat`/`Int` with explicit wrapping (`toInt8`, `% 256`).
- Driver calls (SMAC1) are modelled by their observable results/arguments;
  the results a call would return are inputs of the embedding.
- The embedding is built with `PL_HAS_CONTEST` enabled and
  `PL_HAS_REMOTE && PL_HAS_MOTOR` disabled (the remote/motor sub-branch
  only adds one more queue enqueue and does not change any raised event).
-/

namespace Radio

/-! ## Radio state and events (Radio.c lines 36-57, Event.h events) -/

/-- `RADIO_AppStatusKind` (Radio.c lines 36-44): the seven states of the
transceiver application state machine. -/
inductive AppStatus where
  | initialState
  | resetState
  | receiverAlwaysOn
  | transmitData
  | waitingForAck
  | transmitAck
  | readyForTxRxData
deriving DecidableEq, Repr

/-- The six radio events raised via `EVNT_SetEvent` in Radio.c. -/
inductive Event where
  | radioReset
  | radioTimeout
  | radioAck
  | radioOverflow
  | radioData
  | radioUnknown
deriving DecidableEq, Repr

/-- Receive-completion status of an `tRxPacket` (`u8Status` values
`SMAC1_TIMEOUT`, `SMAC1_SUCCESS`, `SMAC1_OVERFLOW`, and the initial value). -/
inductive RxStatus where
  | success
  | timeout
  | overflow
  | initialValue
deriving DecidableEq, Repr

/-- `RADIO_PREFIX_STR "EST"` (Radio.c line 60). -/
def RADIO_PREFIX_STR : List Char := "EST".toList

/-- `RADIO_ACK_STR "ack"` (Radio.c line 61). -/
def RADIO_ACK_STR : List Char := "ack".toList

/-- The concatenated literal `RADIO_PREFIX_STR RADIO_ACK_STR` = "ESTack"
used by the classifier and the ack transmitter. -/
def ackFrame : List Char := RADIO_PREFIX_STR ++ RADIO_ACK_STR

/-- `RADIO_TIMEOUT_COUNT 0xB000` (Radio.c line 63): receive timeout armed
after a transmit. -/
def RADIO_TIMEOUT_COUNT : Nat := 0xB000

/-! ## Machine integer helpers -/

/-- C conversion of an `int` value to `int8_t` (two's-complement wrap into
`[-128, 127]`), used wherever Radio.c passes an `int` expression to an
`int8_t` parameter. -/
def toInt8 (v : Int) : Int := (v + 128) % 256 - 128

/-! ## UTIL1 helpers.

The UTIL1 component is code of this repository, but it is not under `src/`
(only `Radio.c` is); these helpers are therefore modelled from the spec. -/

/-- Modelled from the spec: `UTIL1_strncmp` (UTIL1 is repository code not
under `src/`). Bounded comparison of two C strings: true iff the first `n`
characters agree, where reading past a string's end yields NUL. Radio.c
itself fixes the return convention (zero = equal): every other call site in
the file tests the result with `==0`. `strncmpEq s1 s2 n = true` models
`UTIL1_strncmp(s1, s2, n) == 0`. -/
def strncmpEq (s1 s2 : List Char) (n : Nat) : Bool :=
  (List.range n).all fun i => s1.getD i (Char.ofNat 0) == s2.getD i (Char.ofNat 0)

/-- Modelled from the spec: `UTIL1_strcpy(dst, dstSize, src)` (UTIL1 not
under `src/`): copy into a buffer of `dstSize` bytes, truncating so that the
content plus NUL fits. -/
def strcpyB (dstSize : Nat) (src : List Char) : List Char :=
  src.take (dstSize - 1)

/-- Modelled from the spec: `UTIL1_strcat(dst, dstSize, add)` (UTIL1 not
under `src/`): append to the buffer content, truncating so that the content
plus NUL fits in `dstSize` bytes. -/
def strcatB (dstSize : Nat) (buf add : List Char) : List Char :=
  buf ++ add.take (dstSize - 1 - buf.length)

/-- Modelled from the spec: `UTIL1_chcat(dst, dstSize, ch)` (UTIL1 not under
`src/`): append one character, subject to the same capacity bound. -/
def chcatB (dstSize : Nat) (buf : List Char) (c : Char) : List Char :=
  strcatB dstSize buf [c]

/-- Decimal rendering of a signed 8-bit value (minus sign followed by the
decimal digits of the absolute value). -/
def num8sStr (v : Int) : List Char :=
  if v < 0 then '-' :: Nat.toDigits 10 v.natAbs else Nat.toDigits 10 v.natAbs

/-- Modelled from the spec: `UTIL1_Num8sToStr(dst, dstSize, n)` (UTIL1 not
under `src/`): overwrite the buffer with the decimal rendering of the
`int8_t` argument, truncated to the capacity. -/
def Num8sToStr (dstSize : Nat) (v : Int) : List Char :=
  (num8sStr (toInt8 v)).take (dstSize - 1)

/-- Modelled from the spec: `UTIL1_strcatNum8s(dst, dstSize, n)` (UTIL1 not
under `src/`): append the decimal rendering of the `int8_t` argument. -/
def strcatNum8s (dstSize : Nat) (buf : List Char) (v : Int) : List Char :=
  strcatB dstSize buf (num8sStr (toInt8 v))

/-- Helper for `xatoi`: skip ' ' characters (the `while(*p==' ')` loops in
Radio.c and the leading-space skip of `UTIL1_xatoi`). -/
def skipSpaces : List Char → List Char
  | ' ' :: rest => skipSpaces rest
  | s => s

/-- Decimal value of a digit list (most significant first). -/
def digitsToNat (ds : List Char) : Nat :=
  ds.foldl (fun acc c => acc * 10 + (c.toNat - 48)) 0

/-- Modelled from the spec: the digit-run step of `UTIL1_xatoi` (UTIL1 not
under `src/`): at least one decimal digit, consumed greedily; returns the
value and the rest of the input. -/
def takeDigits (s : List Char) : Option (Nat × List Char) :=
  let ds := s.takeWhile Char.isDigit
  if ds.isEmpty then none else some (digitsToNat ds, s.dropWhile Char.isDigit)

/-- Modelled from the spec: `UTIL1_xatoi` (UTIL1 is repository code not
under `src/`), restricted to the `<int8>` atom of the contest grammar:
leading spaces skipped, optional minus sign, then at least one decimal
digit; on success returns the parsed value and the rest of the input,
otherwise `none` (`ERR_OK` vs failure). -/
def xatoi (s : List Char) : Option (Int × List Char) :=
  match skipSpaces s with
  | '-' :: rest => (takeDigits rest).map fun p => (-(p.1 : Int), p.2)
  | s1 => (takeDigits s1).map fun p => ((p.1 : Int), p.2)

/-! ## Contest message parser (Radio.c lines 169-210) -/

/-- Result of a successful `IsContestMessage` parse: the two `int8_t`
operand outputs, the operator output, and the `isQuestion` output. -/
structure ContestMsg where
  isQuestion : Bool
  a : Int
  b : Int
  op : Char
deriving DecidableEq, Repr

/-- `IsContestMessage` (Radio.c lines 169-210): parse
"number op number = ?" or "number op number = number"; `none` models the
`FALSE` return. -/
def IsContestMessage (msg : List Char) : Option ContestMsg :=
  match xatoi msg with
  | none => none
  | some (val, p0) =>
    let a := toInt8 val
    match skipSpaces p0 with
    | [] => none
    | c :: p1 =>
      if c = '+' ∨ c = '-' ∨ c = '*' ∨ c = '/' then
        match xatoi p1 with
        | none => none
        | some (val2, p2) =>
          let b := toInt8 val2
          match skipSpaces p2 with
          | '=' :: p3 =>
            match skipSpaces p3 with
            | '?' :: _ => some ⟨true, a, b, c⟩
            | p4 =>
              match xatoi p4 with
              | none => none
              | some _ => some ⟨false, a, b, c⟩
          | _ => none
      else none

/-! ## Contest answer formatter (Radio.c lines 295-316) -/

/-- The fixed trailer appended to every formatted contest answer
(Radio.c line 315). -/
def trailerStr : List Char := " Joe TheBest!".toList

/-- `CalcResultString` (Radio.c lines 295-316): format
"opA op opB = result" followed by the fixed trailer into a buffer of
`bufSize` bytes. The operands are `int8_t` parameters (wrapped at entry);
every numeric append wraps its `int` argument to `int8_t`
(`UTIL1_strcatNum8s` takes an `int8_t`). Division is guarded by
`opB != 0`; a zero divisor appends the literal "ERROR" instead. `Int.tdiv`
is C's truncating division. -/
def CalcResultString (bufSize : Nat) (opA opB : Int) (op : Char) : List Char :=
  let A := toInt8 opA
  let B := toInt8 opB
  let buf0 := Num8sToStr bufSize A
  let buf1 := chcatB bufSize buf0 ' '
  let buf2 := chcatB bufSize buf1 op
  let buf3 := chcatB bufSize buf2 ' '
  let buf4 := strcatNum8s bufSize buf3 B
  let buf5 := strcatB bufSize buf4 " = ".toList
  let buf6 :=
    if op = '+' then strcatNum8s bufSize buf5 (A + B)
    else if op = '-' then strcatNum8s bufSize buf5 (A - B)
    else if op = '*' then strcatNum8s bufSize buf5 (A * B)
    else if op = '/' then
      if B ≠ 0 then strcatNum8s bufSize buf5 (Int.tdiv A B)
      else strcatB bufSize buf5 "ERROR".toList
    else buf5
  strcatB bufSize buf6 trailerStr

/-! ## TxRx state machine (Radio.c lines 80-147) -/

/-- Results the SMAC driver calls made by one `RADIO_HandleState` step would
return: `rxDisableOk` is `SMAC1_MLMERXDisableRequest() == SMAC1_SUCCESS`,
`txOk` is `SMAC1_MCPSDataRequest(&RADIO_TxPacket) == SMAC1_SUCCESS`. -/
structure DriverResults where
  rxDisableOk : Bool
  txOk : Bool
deriving DecidableEq, Repr

/-- Observable outcome of one `RADIO_HandleState` step: the next value of
`RADIO_AppStatus`, whether `SMAC1_MCPSDataRequest` was invoked on the
application packet `RADIO_TxPacket`, whether it was invoked on the local
ack packet, and the timeout argument of `SMAC1_MLMERXEnableRequest` if that
call was made (`some 0` = wait forever, nonzero = bounded). -/
structure HandleStateResult where
  nextStatus : AppStatus
  txDataReq : Bool
  ackDataReq : Bool
  rxArmed : Option Nat
deriving DecidableEq, Repr

/-- `RADIO_HandleState` (Radio.c lines 80-147): one step of the transceiver
state machine, branching on the current `RADIO_AppStatus`. -/
def RADIO_HandleState (dr : DriverResults) (isContest : Bool) (st : AppStatus) :
    HandleStateResult :=
  match st with
  | .initialState => ⟨.receiverAlwaysOn, false, false, none⟩
  | .receiverAlwaysOn => ⟨.readyForTxRxData, false, false, some 0⟩
  | .readyForTxRxData => ⟨.readyForTxRxData, false, false, none⟩
  | .transmitData =>
    if dr.rxDisableOk = false then
      ⟨.transmitData, false, false, none⟩
    else if dr.txOk then
      ⟨if isContest then .receiverAlwaysOn else .waitingForAck,
       true, false, some RADIO_TIMEOUT_COUNT⟩
    else
      ⟨.receiverAlwaysOn, true, false, none⟩
  | .transmitAck => ⟨.receiverAlwaysOn, false, true, none⟩
  | .resetState => ⟨.initialState, false, false, none⟩
  | .waitingForAck => ⟨.waitingForAck, false, false, none⟩

/-! ## Event handler (Radio.c lines 264-292) -/

/-- `RADIO_AppHandleEvent` (Radio.c lines 264-292): switch over the six
radio events; each case sends a diagnostic shell message and re-assigns
`RADIO_AppStatus` regardless of its current value `st`. Returns the new
status and the diagnostic message. -/
def RADIO_AppHandleEvent (event : Event) (st : AppStatus) : AppStatus × List Char :=
  match event, st with
  | .radioReset, _ => (.resetState, "RADIO reset\r\n".toList)
  | .radioTimeout, _ => (.receiverAlwaysOn, "RADIO timeout\r\n".toList)
  | .radioAck, _ => (.receiverAlwaysOn, "RADIO rx ack\r\n".toList)
  | .radioOverflow, _ => (.receiverAlwaysOn, "RADIO overflow\r\n".toList)
  | .radioData, _ => (.transmitAck, "RADIO rx data, going to tx ACK\r\n".toList)
  | .radioUnknown, _ => (.receiverAlwaysOn, "RADIO unknown\r\n".toList)

/-! ## Inbound message queue (Radio.c lines 46-57, 149-166) -/

/-- `RADIO_QUEUE_NOF_ITEMS` (Radio.c line 46). -/
def RADIO_QUEUE_NOF_ITEMS : Nat := 8

/-- `RADIO_QUEUE_ITEM_SIZE` (Radio.c line 47). -/
def RADIO_QUEUE_ITEM_SIZE : Nat := 32

/-- `RADIO_QUEUE_MSG_SNIFF` (enum value with `PL_HAS_CONTEST`). -/
def RADIO_QUEUE_MSG_SNIFF : Nat := 0

/-- `RADIO_QUEUE_MSG_CONTEST_QUESTION`. -/
def RADIO_QUEUE_MSG_CONTEST_QUESTION : Nat := 1

/-- `RADIO_QUEUE_MSG_CONTEST_ANSWER`. -/
def RADIO_QUEUE_MSG_CONTEST_ANSWER : Nat := 2

/-- The copy loop of `QueueMessage` (Radio.c lines 157-162):
`i = 2; while (msgSize > 0 && i < sizeof(buf)) buf[i++] = *msg++;`.
Recursion is on the decrementing `msgSize`; reading `*msg` past the given
byte list yields 0. -/
def queueCopyLoop : List Nat → Nat → Nat → List Nat
  | _, 0, _ => []
  | msg, msgSize + 1, i =>
    if i < RADIO_QUEUE_ITEM_SIZE then
      msg.headD 0 :: queueCopyLoop msg.tail msgSize (i + 1)
    else []

/-- The slot `QueueMessage` builds (Radio.c lines 154-162):
`buf[0] = kind; buf[1] = msgSize;` followed by the copy loop starting at
index 2. `kind` and `msgSize` are `uint8_t` parameters, hence the wrap. -/
def queueMsgSlot (kind : Nat) (msg : List Nat) (msgSize : Nat) : List Nat :=
  kind % 256 :: msgSize % 256 :: queueCopyLoop msg msgSize 2

/-- Modelled from the spec: `FRTOS1_xQueueSendToBackFromISR` on the fixed
8-slot message queue (the FreeRTOS wrapper is not under `src/`): a
non-blocking FIFO append that leaves a full queue unchanged (the failing
return value is ignored by `QueueMessage`, Radio.c lines 163-165). -/
def xQueueSendToBackFromISR (q : List (List Nat)) (item : List Nat) :
    List (List Nat) :=
  if q.length < RADIO_QUEUE_NOF_ITEMS then q ++ [item] else q

/-- `QueueMessage` (Radio.c lines 149-166) acting on the message queue:
encode the slot and send it to the back; a full queue drops the message
with no other effect. -/
def QueueMessage (kind : Nat) (msg : List Nat) (msgSize : Nat)
    (q : List (List Nat)) : List (List Nat) :=
  xQueueSendToBackFromISR q (queueMsgSlot kind msg msgSize)

/-! ## Packet classifier (Radio.c lines 214-258) -/

/-- Arguments of one `QueueMessage` invocation made by the classifier. -/
structure QueuedCall where
  kind : Nat
  data : List Char
  size : Nat
deriving DecidableEq, Repr

/-- `RADIO_DataIndicationPacket` (Radio.c lines 214-258): classify a receive
completion. Inputs are the pieces of global state the function reads
(`RADIO_AppStatus`, `RADIO_isSniffing`, `RADIO_isContest`) and the packet
(`u8Status`, `pu8Data` as chars, `u8DataLength`). The result is the event
passed to `EVNT_SetEvent` (if any) and the list of `QueueMessage` calls
made, in order. The `PL_HAS_REMOTE && PL_HAS_MOTOR` accel sub-branch is
compiled out; it would only add an enqueue inside the prefix-match branch
and does not change the raised event. -/
def RADIO_DataIndicationPacket (st : AppStatus) (isSniffing isContest : Bool)
    (status : RxStatus) (payload : List Char) (dataLen : Nat) :
    Option Event × List QueuedCall :=
  match status with
  | .timeout => (some .radioTimeout, [])
  | .success =>
    let sniffQ : List QueuedCall :=
      if isSniffing then [⟨RADIO_QUEUE_MSG_SNIFF, payload, dataLen⟩] else []
    if st = .waitingForAck ∧ strncmpEq payload ackFrame ackFrame.length = true then
      (some .radioAck, sniffQ)
    else
      match isContest, IsContestMessage payload with
      | true, some r =>
        if r.isQuestion then
          (some .radioData, sniffQ ++ [⟨RADIO_QUEUE_MSG_CONTEST_QUESTION, payload, dataLen⟩])
        else
          (some .radioData, sniffQ ++ [⟨RADIO_QUEUE_MSG_CONTEST_ANSWER, payload, dataLen⟩])
      | _, _ =>
        if strncmpEq payload RADIO_PREFIX_STR RADIO_PREFIX_STR.length = true then
          (some .radioData, sniffQ)
        else
          (some .radioUnknown, sniffQ)
  | .overflow => (some .radioOverflow, [])
  | .initialValue => (none, [])

/-! ## Global state and the send operations (Radio.c lines 65-75, 339-366) -/

/-- Modelled from the spec: `SMAC1_RADIO_BUF_SIZE`, the fixed capacity of
the Tx/Rx data buffers (`SMAC1.h` is driver code not under `src/`; the spec
only fixes that the capacity is a hard constant, its value is not
protocol-defining). -/
def SMAC1_RADIO_BUF_SIZE : Nat := 128

/-- The mutable module-level state of Radio.c that the embedded operations
read or write: `RADIO_AppStatus`, `RADIO_isOn`, `RADIO_isSniffing`,
`RADIO_isContest`, the Tx data buffer contents (as a C string) and the
`u8DataLength` field of `RADIO_TxPacket`. -/
structure RadioGlobals where
  appStatus : AppStatus
  isOn : Bool
  isSniffing : Bool
  isContest : Bool
  txBuf : List Char
  txDataLength : Nat
deriving DecidableEq, Repr

/-- One `RADIO_HandleState()` call acting on the globals: only
`RADIO_AppStatus` is written (the ack path uses a function-local buffer;
driver calls do not touch the modelled state). -/
def handleStateStep (dr : DriverResults) (g : RadioGlobals) : RadioGlobals :=
  { g with appStatus := (RADIO_HandleState dr g.isContest g.appStatus).nextStatus }

/-- The busy-drain loop of the send operations (Radio.c lines 343-345):
`while (RADIO_AppStatus != RADIO_READY_FOR_TX_RX_DATA) RADIO_HandleState();`
made terminating with explicit `fuel`; the driver results are held fixed
across iterations. -/
def drainUntilReady (dr : DriverResults) : Nat → RadioGlobals → RadioGlobals
  | 0, g => g
  | fuel + 1, g =>
    if g.appStatus ≠ .readyForTxRxData then
      drainUntilReady dr fuel (handleStateStep dr g)
    else g

/-- `RADIO_SendString` (Radio.c lines 339-352): return immediately if the
radio is off; otherwise busy-drain to `readyForTxRxData`, build the Tx
buffer as prefix + data, set the packet length to `strlen + 1` (a `byte`),
force `transmitData` and step once. -/
def RADIO_SendString (dr : DriverResults) (fuel : Nat) (data : List Char)
    (g : RadioGlobals) : RadioGlobals :=
  if g.isOn = false then g
  else
    let g1 := drainUntilReady dr fuel g
    let buf := strcatB SMAC1_RADIO_BUF_SIZE
      (strcpyB SMAC1_RADIO_BUF_SIZE RADIO_PREFIX_STR) data
    let g2 := { g1 with
      txBuf := buf
      txDataLength := (buf.length + 1) % 256
      appStatus := .transmitData }
    handleStateStep dr g2

/-- `RADIO_SendStringRaw` (Radio.c lines 354-366): identical to
`RADIO_SendString` but without the prefix. -/
def RADIO_SendStringRaw (dr : DriverResults) (fuel : Nat) (data : List Char)
    (g : RadioGlobals) : RadioGlobals :=
  if g.isOn = false then g
  else
    let g1 := drainUntilReady dr fuel g
    let buf := strcpyB SMAC1_RADIO_BUF_SIZE data
    let g2 := { g1 with
      txBuf := buf
      txDataLength := (buf.length + 1) % 256
      appStatus := .transmitData }
    handleStateStep dr g2

/-- A receive completion followed by the handling of the event it raised
(the classifier runs in interrupt context, `RADIO_AppHandleEvent` later in
task context; neither touches the Tx buffer or packet). -/
def indicationThenEvent (status : RxStatus) (payload : List Char) (dataLen : Nat)
    (g : RadioGlobals) : RadioGlobals :=
  match (RADIO_DataIndicationPacket g.appStatus g.isSniffing g.isContest
      status payload dataLen).1 with
  | some e => { g with appStatus := (RADIO_AppHandleEvent e g.appStatus).1 }
  | none => g

/-! ## Task-side queue consumer (Radio.c lines 506-559) -/

/-- Indices `i` of `msg[i]` read by the ASCII dump loop of the sniff branch
(Radio.c line 521): `for (i = 0; i < size && i < sizeof(buf); i++)` with
`sizeof(buf) = 32`. -/
def sniffAsciiReads (size : Nat) : List Nat :=
  (List.range size).filter (· < 32)

/-- Indices `i` of `msg[i]` read by the hex dump loop of the sniff branch
(Radio.c line 528): `for (i = 0; i < size; i++)` — bounded only by the
recorded size byte. `msg` points 2 bytes into the dequeued 32-byte slot. -/
def sniffHexReads (size : Nat) : List Nat :=
  List.range size

/-- The contest-answer branch of `RADIO_HandleMessage` (Radio.c lines
542-549): the winner message is printed iff
`UTIL1_strncmp(msg, ContestCalcExpectedResultStr,
UTIL1_strlen(ContestCalcExpectedResultStr))` is nonzero, i.e. iff the
bounded comparison does NOT find a match. -/
def contestAnswerWinnerPrinted (msg expected : List Char) : Bool :=
  !(strncmpEq msg expected expected.length)

/-! ## Helper lemmas -/

theorem toInt8_mem (v : Int) : -128 ≤ toInt8 v ∧ toInt8 v ≤ 127 := by
  unfold toInt8
  omega

theorem toInt8_fix (v : Int) (h1 : -128 ≤ v) (h2 : v ≤ 127) : toInt8 v = v := by
  unfold toInt8
  omega

theorem toDigits_length_le : ∀ n : Nat, n < 129 → (Nat.toDigits 10 n).length ≤ 3 := by
  decide

theorem num8sStr_length_le (v : Int) (h1 : -128 ≤ v) (h2 : v ≤ 127) :
    (num8sStr v).length ≤ 4 := by
  unfold num8sStr
  have hd := toDigits_length_le v.natAbs (by omega)
  by_cases hv : v < 0
  · rw [if_pos hv]
    simp only [List.length_cons]
    omega
  · rw [if_neg hv]
    omega

theorem strcatB_fits (n : Nat) (buf s : List Char) (h : buf.length + s.length + 1 ≤ n) :
    strcatB n buf s = buf ++ s := by
  unfold strcatB
  rw [List.take_of_length_le (by omega)]

theorem strcatB_length_le (n : Nat) (buf s : List Char) :
    (strcatB n buf s).length ≤ buf.length + s.length := by
  unfold strcatB
  simp only [List.length_append, List.length_take]
  omega

/-! ## Claim theorems -/

/-- C1 (status: code_bug). The claim says the contest-answer handler
reports a win if and only if the bounded comparison against the cached
expected-answer string finds a match. The code (Radio.c line 545) tests the
raw `UTIL1_strncmp` result, which is zero on a match — every other call
site in Radio.c tests `==0` — so the winner message is printed exactly when
the comparison does NOT match. Evaluated here at the failing input: the
cache set by challenge "3 + 4 = ?" (a 16-byte buffer, hence the truncated
trailer), a received answer identical to it is not reported as a win, while
a wrong answer is. -/
theorem c1_winner_printed_on_mismatch :
    CalcResultString 16 3 4 '+' = "3 + 4 = 7 Joe T".toList ∧
    contestAnswerWinnerPrinted (CalcResultString 16 3 4 '+')
      (CalcResultString 16 3 4 '+') = false ∧
    contestAnswerWinnerPrinted "1 * 1 = 2".toList
      (CalcResultString 16 3 4 '+') = true := by
  decide

/-- C3: One `RADIO_HandleState` step in state `transmitData`: if disabling
continuous receive fails, the state stays `transmitData` with no transmit
issued and no receive armed (retry, no backoff); if disabling succeeds and
the transmit succeeds, a bounded-duration receive (`RADIO_TIMEOUT_COUNT`,
nonzero) is armed and the next state is `waitingForAck` normally or
`receiverAlwaysOn` in contest mode; if the transmit fails, the next state
is `receiverAlwaysOn`. -/
theorem c3_transmit_data_step (dr : DriverResults) (isContest : Bool) :
    (dr.rxDisableOk = false →
      RADIO_HandleState dr isContest .transmitData =
        ⟨.transmitData, false, false, none⟩) ∧
    (dr.rxDisableOk = true → dr.txOk = true →
      (RADIO_HandleState dr isContest .transmitData).nextStatus =
        (if isContest then .receiverAlwaysOn else .waitingForAck) ∧
      (RADIO_HandleState dr isContest .transmitData).rxArmed =
        some RADIO_TIMEOUT_COUNT ∧ RADIO_TIMEOUT_COUNT ≠ 0) ∧
    (dr.rxDisableOk = true → dr.txOk = false →
      (RADIO_HandleState dr isContest .transmitData).nextStatus =
        .receiverAlwaysOn) := by
  obtain ⟨d, t⟩ := dr
  cases d <;> cases t <;> cases isContest <;>
    simp [RADIO_HandleState, RADIO_TIMEOUT_COUNT]

/-- Witness for C3 at a concrete input (disable fails, so the state machine
stays in `transmitData` without transmitting). -/
theorem c3_witness :
    RADIO_HandleState ⟨false, true⟩ false .transmitData =
      ⟨.transmitData, false, false, none⟩ :=
  (c3_transmit_data_step ⟨false, true⟩ false).1 rfl

/-- C4: `RADIO_AppHandleEvent` is total over the six radio events and, for
every current state value, re-assigns the state by the fixed mapping
Reset→Reset, Timeout→ReceiveAlwaysOn, Ack→ReceiveAlwaysOn,
Overflow→ReceiveAlwaysOn, Data→TransmitAck, Unknown→ReceiveAlwaysOn,
each case emitting a (nonempty) diagnostic message. -/
theorem c4_event_handler_total (st : AppStatus) :
    (∀ e : Event, (RADIO_AppHandleEvent e st).2 ≠ []) ∧
    (RADIO_AppHandleEvent .radioReset st).1 = .resetState ∧
    (RADIO_AppHandleEvent .radioTimeout st).1 = .receiverAlwaysOn ∧
    (RADIO_AppHandleEvent .radioAck st).1 = .receiverAlwaysOn ∧
    (RADIO_AppHandleEvent .radioOverflow st).1 = .receiverAlwaysOn ∧
    (RADIO_AppHandleEvent .radioData st).1 = .transmitAck ∧
    (RADIO_AppHandleEvent .radioUnknown st).1 = .receiverAlwaysOn := by
  cases st <;>
    exact ⟨fun e => by cases e <;> decide, rfl, rfl, rfl, rfl, rfl, rfl⟩

/-- Witness for C4 at a concrete event and state: Data received while
waiting for an ack moves the state to `transmitAck`. -/
theorem c4_witness :
    (RADIO_AppHandleEvent .radioData .waitingForAck).1 = .transmitAck :=
  (c4_event_handler_total .waitingForAck).2.2.2.2.2.1

/-- C6: Parsing "3 + 4 = ?" succeeds with operandA = 3, operandB = 4,
operator '+', isQuestion = true, and the formatted answer (in the 36-byte
responder buffer) is "3 + 4 = 7" followed by the fixed trailer. -/
theorem c6_parse_and_answer :
    IsContestMessage "3 + 4 = ?".toList =
      some { isQuestion := true, a := 3, b := 4, op := '+' } ∧
    CalcResultString 36 3 4 '+' = "3 + 4 = 7".toList ++ trailerStr := by
  decide

/-- C9: If the radio-on flag is false, both send operations return
immediately, leaving the whole modelled state (radio state, Tx buffer,
Tx packet length) unchanged. -/
theorem c9_send_noop_when_off (dr : DriverResults) (fuel : Nat)
    (data : List Char) (g : RadioGlobals) (h : g.isOn = false) :
    RADIO_SendString dr fuel data g = g ∧
    RADIO_SendStringRaw dr fuel data g = g := by
  constructor <;> simp [RADIO_SendString, RADIO_SendStringRaw, h]

/-- Witness for C9 at a concrete off-state. -/
theorem c9_witness :
    RADIO_SendString ⟨true, true⟩ 3 "hi".toList
      ⟨.readyForTxRxData, false, false, false, "old".toList, 4⟩ =
      ⟨.readyForTxRxData, false, false, false, "old".toList, 4⟩ :=
  (c9_send_noop_when_off ⟨true, true⟩ 3 "hi".toList
    ⟨.readyForTxRxData, false, false, false, "old".toList, 4⟩ rfl).1

theorem queueCopyLoop_length (n : Nat) : ∀ (msg : List Nat) (i : Nat),
    (queueCopyLoop msg n i).length = min n (RADIO_QUEUE_ITEM_SIZE - i) := by
  induction n with
  | zero => intro msg i; simp [queueCopyLoop]
  | succ n ih =>
    intro msg i
    by_cases h : i < RADIO_QUEUE_ITEM_SIZE
    · simp only [queueCopyLoop, if_pos h, List.length_cons, ih]
      simp only [RADIO_QUEUE_ITEM_SIZE] at *
      omega
    · simp only [queueCopyLoop, if_neg h, List.length_nil]
      simp only [RADIO_QUEUE_ITEM_SIZE] at *
      omega

/-- C5: The slot built by `QueueMessage` is a kind byte, a length byte and
at most 30 payload bytes (longer payloads truncated), so it never exceeds
the 32-byte slot size; and on a full queue the enqueue leaves the queue
unchanged (silent drop, no error surfaced), otherwise it appends the slot
at the back. -/
theorem c5_queue_message (kind : Nat) (msg : List Nat) (msgSize : Nat)
    (q : List (List Nat)) :
    (queueMsgSlot kind msg msgSize).length = 2 + min msgSize 30 ∧
    (queueMsgSlot kind msg msgSize).length ≤ RADIO_QUEUE_ITEM_SIZE ∧
    (queueMsgSlot kind msg msgSize).getD 0 0 = kind % 256 ∧
    (queueMsgSlot kind msg msgSize).getD 1 0 = msgSize % 256 ∧
    (RADIO_QUEUE_NOF_ITEMS ≤ q.length → QueueMessage kind msg msgSize q = q) ∧
    (q.length < RADIO_QUEUE_NOF_ITEMS →
      QueueMessage kind msg msgSize q = q ++ [queueMsgSlot kind msg msgSize]) := by
  have hlen := queueCopyLoop_length msgSize msg 2
  refine ⟨?_, ?_, rfl, rfl, ?_, ?_⟩
  · simp only [queueMsgSlot, List.length_cons, hlen, RADIO_QUEUE_ITEM_SIZE]
    omega
  · simp only [queueMsgSlot, List.length_cons, hlen, RADIO_QUEUE_ITEM_SIZE]
    omega
  · intro h
    simp only [QueueMessage, xQueueSendToBackFromISR, if_neg (by omega : ¬ q.length < RADIO_QUEUE_NOF_ITEMS)]
  · intro h
    simp only [QueueMessage, xQueueSendToBackFromISR, if_pos h]

/-- Witness for C5 at concrete inputs: an append on a non-full queue and a
silent drop on a full queue. -/
theorem c5_witness :
    QueueMessage 1 [10, 20, 30] 3 [] = [] ++ [queueMsgSlot 1 [10, 20, 30] 3] ∧
    QueueMessage 1 [10, 20, 30] 3 (List.replicate 8 []) = List.replicate 8 [] :=
  ⟨(c5_queue_message 1 [10, 20, 30] 3 []).2.2.2.2.2 (by decide),
   (c5_queue_message 1 [10, 20, 30] 3 (List.replicate 8 [])).2.2.2.2.1 (by decide)⟩

/-- C10: The length byte written by `QueueMessage` is the original payload
length (not the truncated count): for any payload size in 31..255, the
recorded length exceeds the 30 bytes actually stored, and the consumer's
sniff hex dump loop, which runs up to the recorded length, reads slot-byte
offsets `2 + i` beyond the copied payload and beyond the 32-byte slot. -/
theorem c10_sniff_hex_overrun (kind : Nat) (msg : List Nat) (msgSize : Nat)
    (h30 : 30 < msgSize) (h256 : msgSize < 256) :
    (queueMsgSlot kind msg msgSize).getD 1 0 = msgSize ∧
    (queueMsgSlot kind msg msgSize).length - 2 = 30 ∧
    30 < (queueMsgSlot kind msg msgSize).getD 1 0 ∧
    sniffHexReads ((queueMsgSlot kind msg msgSize).getD 1 0) = List.range msgSize ∧
    (∃ i ∈ sniffHexReads ((queueMsgSlot kind msg msgSize).getD 1 0),
      (queueMsgSlot kind msg msgSize).length - 2 ≤ i) ∧
    (∃ i ∈ sniffHexReads ((queueMsgSlot kind msg msgSize).getD 1 0),
      RADIO_QUEUE_ITEM_SIZE ≤ 2 + i) := by
  have hlen := queueCopyLoop_length msgSize msg 2
  have hrec : (queueMsgSlot kind msg msgSize).getD 1 0 = msgSize := by
    simp only [queueMsgSlot, List.getD_cons_succ, List.getD_cons_zero]
    omega
  have hsl : (queueMsgSlot kind msg msgSize).length - 2 = 30 := by
    simp only [queueMsgSlot, List.length_cons, hlen, RADIO_QUEUE_ITEM_SIZE]
    omega
  refine ⟨hrec, hsl, ?_, ?_, ?_, ?_⟩
  · omega
  · rw [hrec]; rfl
  · refine ⟨30, ?_, ?_⟩
    · rw [hrec]; simp only [sniffHexReads, List.mem_range]; omega
    · rw [hsl]
  · refine ⟨30, ?_, ?_⟩
    · rw [hrec]; simp only [sniffHexReads, List.mem_range]; omega
    · decide

/-- Witness for C10 at a concrete input: a 31-byte payload. -/
theorem c10_witness :
    (queueMsgSlot 0 (List.replicate 31 7) 31).getD 1 0 = 31 ∧
    (queueMsgSlot 0 (List.replicate 31 7) 31).length - 2 = 30 :=
  ⟨(c10_sniff_hex_overrun 0 (List.replicate 31 7) 31 (by decide) (by decide)).1,
   (c10_sniff_hex_overrun 0 (List.replicate 31 7) 31 (by decide) (by decide)).2.1⟩

/-- C8: A `timeout` receive completion while in `waitingForAck` raises the
Timeout event; handling it sets the state to `receiverAlwaysOn`, and the
whole path leaves the Tx buffer contents and the Tx packet length
unchanged. -/
theorem c8_timeout_path (g : RadioGlobals) (payload : List Char)
    (dataLen : Nat) (_h : g.appStatus = .waitingForAck) :
    (RADIO_DataIndicationPacket g.appStatus g.isSniffing g.isContest
      .timeout payload dataLen).1 = some .radioTimeout ∧
    (indicationThenEvent .timeout payload dataLen g).appStatus =
      .receiverAlwaysOn ∧
    (indicationThenEvent .timeout payload dataLen g).txBuf = g.txBuf ∧
    (indicationThenEvent .timeout payload dataLen g).txDataLength =
      g.txDataLength := by
  refine ⟨rfl, ?_, rfl, rfl⟩
  simp [indicationThenEvent, RADIO_DataIndicationPacket, RADIO_AppHandleEvent]

/-- Witness for C8 at a concrete state in `waitingForAck`. -/
theorem c8_witness :
    (indicationThenEvent .timeout "x".toList 2
      ⟨.waitingForAck, true, false, false, "ESThello".toList, 9⟩).txBuf =
      "ESThello".toList :=
  (c8_timeout_path ⟨.waitingForAck, true, false, false, "ESThello".toList, 9⟩
    "x".toList 2 rfl).2.2.1

/-- C2: For a `success` receive completion, the classifier raises the Ack
event exactly when the state is `waitingForAck` and the payload matches the
prefix+ack literal under the bounded comparison; a payload equal to the
prefix+ack literal received in any other state falls through to the
prefix-match branch and raises the Data event. -/
theorem c2_ack_classification (st : AppStatus) (isSniffing isContest : Bool)
    (payload : List Char) (dataLen : Nat) :
    ((RADIO_DataIndicationPacket st isSniffing isContest .success payload
        dataLen).1 = some .radioAck ↔
      (st = .waitingForAck ∧ strncmpEq payload ackFrame ackFrame.length = true)) ∧
    (st ≠ .waitingForAck →
      (RADIO_DataIndicationPacket st isSniffing isContest .success ackFrame
        dataLen).1 = some .radioData) := by
  constructor
  · by_cases h : st = .waitingForAck ∧ strncmpEq payload ackFrame ackFrame.length = true
    · simp [RADIO_DataIndicationPacket, h]
    · simp only [RADIO_DataIndicationPacket, if_neg h]
      cases hc : isContest with
      | true =>
        cases hm : IsContestMessage payload with
        | some r =>
          cases hq : r.isQuestion <;>
            simp [h, hq]
        | none =>
          by_cases hp : strncmpEq payload RADIO_PREFIX_STR RADIO_PREFIX_STR.length = true <;>
            simp [h, hp]
      | false =>
        by_cases hp : strncmpEq payload RADIO_PREFIX_STR RADIO_PREFIX_STR.length = true <;>
          simp [h, hp]
  · intro h
    have hn : ¬ (st = .waitingForAck ∧
        strncmpEq ackFrame ackFrame ackFrame.length = true) := by
      intro hcontra; exact h hcontra.1
    simp only [RADIO_DataIndicationPacket, if_neg hn]
    have hcm : IsContestMessage ackFrame = none := by decide
    have hpm : strncmpEq ackFrame RADIO_PREFIX_STR RADIO_PREFIX_STR.length = true := by
      decide
    cases isContest <;> simp [hcm, hpm]

/-- Witness for C2: the full ack frame received while in
`receiverAlwaysOn` (not waiting for an ack) is classified as Data. -/
theorem c2_witness :
    (RADIO_DataIndicationPacket .receiverAlwaysOn false true .success ackFrame
      7).1 = some .radioData :=
  (c2_ack_classification .receiverAlwaysOn false true ackFrame 7).2 (by decide)

/-- The result field of `CalcResultString` (Radio.c lines 302-314): the
value appended between " = " and the trailer, for already-wrapped operands
`A` and `B`. -/
def resultField (A B : Int) (op : Char) : List Char :=
  if op = '+' then num8sStr (toInt8 (A + B))
  else if op = '-' then num8sStr (toInt8 (A - B))
  else if op = '*' then num8sStr (toInt8 (A * B))
  else if op = '/' then
    if B ≠ 0 then num8sStr (toInt8 (Int.tdiv A B)) else "ERROR".toList
  else []

theorem resultField_length_le (A B : Int) (op : Char) :
    (resultField A B op).length ≤ 5 := by
  unfold resultField
  have h1 := toInt8_mem (A + B)
  have h2 := toInt8_mem (A - B)
  have h3 := toInt8_mem (A * B)
  have h4 := toInt8_mem (Int.tdiv A B)
  split
  · exact le_trans (num8sStr_length_le _ h1.1 h1.2) (by omega)
  · split
    · exact le_trans (num8sStr_length_le _ h2.1 h2.2) (by omega)
    · split
      · exact le_trans (num8sStr_length_le _ h3.1 h3.2) (by omega)
      · split
        · split
          · exact le_trans (num8sStr_length_le _ h4.1 h4.2) (by omega)
          · decide
        · simp

/-- Closed form of `CalcResultString` at the 36-byte buffer used by
`RespondWithAnswer`: with both operands wrapped to `int8` every piece fits,
so the result is exactly the rendered expression, " = ", the result field
and the trailer. -/
theorem calcResultString36_eq (a b : Int) (op : Char) :
    CalcResultString 36 a b op =
      num8sStr (toInt8 a) ++ [' '] ++ [op] ++ [' '] ++ num8sStr (toInt8 b)
        ++ " = ".toList ++ resultField (toInt8 a) (toInt8 b) op
        ++ trailerStr := by
  obtain ⟨hA1, hA2⟩ := toInt8_mem a
  obtain ⟨hB1, hB2⟩ := toInt8_mem b
  have hlA : (num8sStr (toInt8 a)).length ≤ 4 := num8sStr_length_le _ hA1 hA2
  have hlB : (num8sStr (toInt8 b)).length ≤ 4 := num8sStr_length_le _ hB1 hB2
  have hlR := resultField_length_le (toInt8 a) (toInt8 b) op
  have hEq3 : (" = ".toList).length = 3 := rfl
  have hTr : trailerStr.length = 13 := rfl
  have e0 : Num8sToStr 36 (toInt8 a) = num8sStr (toInt8 a) := by
    unfold Num8sToStr
    rw [toInt8_fix _ hA1 hA2, List.take_of_length_le (by omega)]
  have e1 : chcatB 36 (num8sStr (toInt8 a)) ' ' = num8sStr (toInt8 a) ++ [' '] := by
    unfold chcatB
    exact strcatB_fits _ _ _ (by simp only [List.length_singleton]; omega)
  have e2 : chcatB 36 (num8sStr (toInt8 a) ++ [' ']) op =
      num8sStr (toInt8 a) ++ [' '] ++ [op] := by
    unfold chcatB
    exact strcatB_fits _ _ _
      (by simp only [List.length_append, List.length_singleton]; omega)
  have e3 : chcatB 36 (num8sStr (toInt8 a) ++ [' '] ++ [op]) ' ' =
      num8sStr (toInt8 a) ++ [' '] ++ [op] ++ [' '] := by
    unfold chcatB
    exact strcatB_fits _ _ _
      (by simp only [List.length_append, List.length_singleton]; omega)
  have e4 : strcatNum8s 36 (num8sStr (toInt8 a) ++ [' '] ++ [op] ++ [' ']) (toInt8 b) =
      num8sStr (toInt8 a) ++ [' '] ++ [op] ++ [' '] ++ num8sStr (toInt8 b) := by
    unfold strcatNum8s
    rw [toInt8_fix _ hB1 hB2]
    exact strcatB_fits _ _ _
      (by simp only [List.length_append, List.length_singleton]; omega)
  have e5 : strcatB 36
      (num8sStr (toInt8 a) ++ [' '] ++ [op] ++ [' '] ++ num8sStr (toInt8 b))
      " = ".toList =
      num8sStr (toInt8 a) ++ [' '] ++ [op] ++ [' '] ++ num8sStr (toInt8 b)
        ++ " = ".toList :=
    strcatB_fits _ _ _
      (by simp only [List.length_append, List.length_singleton, hEq3]; omega)
  have hlP : (num8sStr (toInt8 a) ++ [' '] ++ [op] ++ [' '] ++ num8sStr (toInt8 b)
      ++ " = ".toList).length ≤ 14 := by
    simp only [List.length_append, List.length_singleton, hEq3]
    omega
  have e6 : ∀ X : Int,
      strcatNum8s 36
        (num8sStr (toInt8 a) ++ [' '] ++ [op] ++ [' '] ++ num8sStr (toInt8 b)
          ++ " = ".toList) X =
      num8sStr (toInt8 a) ++ [' '] ++ [op] ++ [' '] ++ num8sStr (toInt8 b)
        ++ " = ".toList ++ num8sStr (toInt8 X) := by
    intro X
    obtain ⟨hX1, hX2⟩ := toInt8_mem X
    have := num8sStr_length_le _ hX1 hX2
    unfold strcatNum8s
    exact strcatB_fits _ _ _ (by omega)
  have e6e : strcatB 36
      (num8sStr (toInt8 a) ++ [' '] ++ [op] ++ [' '] ++ num8sStr (toInt8 b)
        ++ " = ".toList) "ERROR".toList =
      num8sStr (toInt8 a) ++ [' '] ++ [op] ++ [' '] ++ num8sStr (toInt8 b)
        ++ " = ".toList ++ "ERROR".toList :=
    strcatB_fits _ _ _ (by have h5 : ("ERROR".toList).length = 5 := rfl; omega)
  have e7 : ∀ Q : List Char, Q.length ≤ 19 →
      strcatB 36 Q trailerStr = Q ++ trailerStr := by
    intro Q hQ
    exact strcatB_fits _ _ _ (by omega)
  simp only [CalcResultString]
  rw [e0, e1, e2, e3, e4, e5]
  unfold resultField
  by_cases h1 : op = '+'
  · rw [if_pos h1, if_pos h1, e6]
    rw [e7 _ (by
      simp only [List.length_append, List.length_singleton, hEq3]
      have := (toInt8_mem (toInt8 a + toInt8 b))
      have := num8sStr_length_le _ this.1 this.2
      omega)]
  · rw [if_neg h1, if_neg h1]
    by_cases h2 : op = '-'
    · rw [if_pos h2, if_pos h2, e6]
      rw [e7 _ (by
        simp only [List.length_append, List.length_singleton, hEq3]
        have := (toInt8_mem (toInt8 a - toInt8 b))
        have := num8sStr_length_le _ this.1 this.2
        omega)]
    · rw [if_neg h2, if_neg h2]
      by_cases h3 : op = '*'
      · rw [if_pos h3, if_pos h3, e6]
        rw [e7 _ (by
          simp only [List.length_append, List.length_singleton, hEq3]
          have := (toInt8_mem (toInt8 a * toInt8 b))
          have := num8sStr_length_le _ this.1 this.2
          omega)]
      · rw [if_neg h3, if_neg h3]
        by_cases h4 : op = '/'
        · rw [if_pos h4, if_pos h4]
          by_cases h5 : toInt8 b ≠ 0
          · rw [if_pos h5, if_pos h5, e6]
            rw [e7 _ (by
              simp only [List.length_append, List.length_singleton, hEq3]
              have := (toInt8_mem (Int.tdiv (toInt8 a) (toInt8 b)))
              have := num8sStr_length_le _ this.1 this.2
              omega)]
          · rw [if_neg h5, if_neg h5, e6e]
            rw [e7 _ (by
              have h5l : ("ERROR".toList).length = 5 := rfl
              simp only [List.length_append, List.length_singleton, hEq3, h5l]
              omega)]
        · rw [if_neg h4, if_neg h4]
          rw [e7 _ (by simp only [List.length_append, List.length_singleton, hEq3]; omega)]
          simp

/-- C7: In the answer formatter with operator '/', the division is
performed only when the (wrapped) divisor is nonzero; a zero divisor yields
the literal "ERROR" token in place of a quotient (the formatter is total);
and for every operator and operand combination the fixed trailer string is
a suffix of the formatted answer. -/
theorem c7_division_guard_and_trailer (a b : Int) (op : Char) :
    (toInt8 b = 0 →
      CalcResultString 36 a b '/' =
        num8sStr (toInt8 a) ++ " / 0 = ERROR Joe TheBest!".toList) ∧
    (toInt8 b ≠ 0 →
      CalcResultString 36 a b '/' =
        num8sStr (toInt8 a) ++ [' '] ++ ['/'] ++ [' '] ++ num8sStr (toInt8 b)
          ++ " = ".toList
          ++ num8sStr (toInt8 (Int.tdiv (toInt8 a) (toInt8 b)))
          ++ trailerStr) ∧
    trailerStr <:+ CalcResultString 36 a b op := by
  refine ⟨?_, ?_, ?_⟩
  · intro h0
    rw [calcResultString36_eq]
    rw [h0]
    have hres : resultField (toInt8 a) 0 '/' = "ERROR".toList := by
      unfold resultField
      rw [if_neg (by decide), if_neg (by decide), if_neg (by decide),
        if_pos rfl, if_neg (by simp)]
    rw [hres]
    have h00 : num8sStr 0 = ['0'] := by decide
    rw [h00]
    simp only [List.append_assoc, List.singleton_append, List.cons_append]
    congr 1
  · intro h0
    rw [calcResultString36_eq]
    have hres : resultField (toInt8 a) (toInt8 b) '/' =
        num8sStr (toInt8 (Int.tdiv (toInt8 a) (toInt8 b))) := by
      unfold resultField
      rw [if_neg (by decide), if_neg (by decide), if_neg (by decide),
        if_pos rfl, if_pos h0]
    rw [hres]
  · rw [calcResultString36_eq]
    exact List.suffix_append _ _

/-- Witness for C7 at a concrete zero divisor. -/
theorem c7_witness :
    CalcResultString 36 5 0 '/' =
      num8sStr (toInt8 5) ++ " / 0 = ERROR Joe TheBest!".toList :=
  (c7_division_guard_and_trailer 5 0 '/').1 (by decide)

end Radio
